import Mathlib

/-!
Verification development for the TurboPDF renderer (`src/lib.rs`).

The Rust source drives an HTML canvas (`CanvasRenderingContext2d`) from a
decoded PDF operator stream.  We embed the renderer shallowly:

* `f32`/`f64` values are modelled as exact rationals (`ℚ`); Rust's saturating
  float-to-integer `as` casts become `toU8`/`toU32` (truncate toward zero,
  clamp to the integer range).
* Each canvas primitive invocation is recorded as a `SurfaceCall`; a render
  run is observed through the ordered list of calls it issues.
* Fallible externals (canvas-context acquisition, the fallible canvas calls
  whose errors the source propagates with `?`) are oracles passed in as
  parameters; canvas calls whose Rust `Result` is discarded with `.ok()` are
  recorded in the trace and cannot influence control flow, exactly as in the
  source.
* The `pdf` crate (document parsing, stream decoding, operator parsing,
  `PdfString::to_string_lossy`) is external to the repository; where a claim
  depends on it, the definition is modelled from the spec and marked
  `Modelled from the spec:` in its doc comment.
-/

/-- One primitive call against the 2D drawing surface (canvas + context),
mirroring the `web_sys` methods invoked in `src/lib.rs`. -/
inductive SurfaceCall where
  | setWidth (w : ℕ)
  | setHeight (h : ℕ)
  | setFillStyleStr (s : String)
  | setStrokeStyleStr (s : String)
  | fillRect (x y w h : ℚ)
  | scaleCall (sx sy : ℚ)
  | translateCall (tx ty : ℚ)
  | transformCall (a b c d e f : ℚ)
  | save
  | restore
  | beginPath
  | moveTo (x y : ℚ)
  | lineTo (x y : ℚ)
  | bezierCurveTo (c1x c1y c2x c2y x y : ℚ)
  | rectCall (x y w h : ℚ)
  | closePath
  | fillCall
  | strokeCall
  | setLineWidth (w : ℚ)
  | setLineCap (s : String)
  | setLineJoin (s : String)
  | setMiterLimit (l : ℚ)
  | setFont (s : String)
  | fillText (s : String) (x y : ℚ)
  deriving DecidableEq, Repr

/-- Rust saturating cast `as u8` of a float value: truncate toward zero and
clamp into `[0, 255]` (truncation toward zero agrees with `⌊·⌋` on the
surviving positive range). -/
def toU8 (q : ℚ) : ℕ :=
  if q ≤ 0 then 0 else if 255 ≤ q then 255 else ⌊q⌋.toNat

/-- Rust saturating cast `as u32`: truncate toward zero and clamp into
`[0, 2^32 - 1]`. -/
def toU32 (q : ℚ) : ℕ :=
  if q ≤ 0 then 0 else if 4294967295 ≤ q then 4294967295 else ⌊q⌋.toNat

/-- The PDF colour model used by `color_to_css` (`pdf::content::Color`):
gray, RGB and CMYK components are floats; every other colour space falls in
the catch-all arm. -/
inductive Color where
  | Gray (g : ℚ)
  | Rgb (red green blue : ℚ)
  | Cmyk (cyan magenta yellow key : ℚ)
  | Other
  deriving DecidableEq, Repr

/-- The CSS string `format!("rgb({},{},{})", r, g, b)` built by
`color_to_css`. -/
def cssRgb (r g b : ℕ) : String :=
  "rgb(" ++ toString r ++ "," ++ toString g ++ "," ++ toString b ++ ")"

/-- `PdfRenderer::color_to_css` (src/lib.rs lines 454-476): gray and RGB
components are scaled by 255 and cast `as u8`; CMYK is converted naively via
`(1-c)(1-k)`, `(1-m)(1-k)`, `(1-y)(1-k)`; anything else is opaque black. -/
def color_to_css (color : Color) : String :=
  match color with
  | .Gray g =>
      let val := toU8 (g * 255)
      cssRgb val val val
  | .Rgb red green blue =>
      cssRgb (toU8 (red * 255)) (toU8 (green * 255)) (toU8 (blue * 255))
  | .Cmyk cyan magenta yellow key =>
      let r := toU8 ((1 - cyan) * (1 - key) * 255)
      let g := toU8 ((1 - magenta) * (1 - key) * 255)
      let b := toU8 ((1 - yellow) * (1 - key) * 255)
      cssRgb r g b
  | .Other => "rgb(0,0,0)"

/-- The 6-component affine text matrix `[f64; 6]` of `TextState`, with
`a,b,c,d,e,f` standing for indices `0..5` of the Rust array. -/
structure TMatrix where
  a : ℚ
  b : ℚ
  c : ℚ
  d : ℚ
  e : ℚ
  f : ℚ
  deriving DecidableEq, Repr

/-- The identity matrix `[1,0,0,1,0,0]`. -/
def TMatrix.id : TMatrix := ⟨1, 0, 0, 1, 0, 0⟩

/-- `struct TextState` (src/lib.rs lines 8-19). -/
structure TextState where
  font_size : ℚ
  font_name : String
  text_matrix : TMatrix
  text_leading : ℚ
  char_spacing : ℚ
  word_spacing : ℚ
  horizontal_scaling : ℚ
  text_rise : ℚ
  deriving DecidableEq, Repr

/-- `TextState::new` (src/lib.rs lines 22-33). -/
def TextState.new : TextState :=
  { font_size := 12
    font_name := "sans-serif"
    text_matrix := TMatrix.id
    text_leading := 0
    char_spacing := 0
    word_spacing := 0
    horizontal_scaling := 100
    text_rise := 0 }

/-- `TextState::reset` (src/lib.rs lines 35-38): sets the text matrix back to
the identity and touches nothing else. -/
def TextState.reset (ts : TextState) : TextState :=
  { ts with text_matrix := TMatrix.id }

/-- `pdf::content::LineCap`. -/
inductive LineCap where
  | Butt
  | Round
  | Square
  deriving DecidableEq, Repr

/-- `pdf::content::LineJoin`. -/
inductive LineJoin where
  | Miter
  | Round
  | Bevel
  deriving DecidableEq, Repr

/-- The decoded drawing operators (`pdf::content::Op`) that
`render_operation` dispatches on.  `Unsupported` stands for every remaining
variant of the (closed) `Op` enum, all of which land in the `_ => {}` arm.
For `TextDraw` the operand is the raw byte run of the PDF string (decoding
happens inside the dispatch, as in the source). -/
inductive Op where
  | Save
  | Restore
  | Transform (a b c d e f : ℚ)
  | MoveTo (x y : ℚ)
  | LineTo (x y : ℚ)
  | CurveTo (c1x c1y c2x c2y x y : ℚ)
  | Rect (x y w h : ℚ)
  | Close
  | Stroke
  | Fill (evenOdd : Bool)
  | FillAndStroke (evenOdd : Bool)
  | EndPath
  | StrokeColor (color : Color)
  | FillColor (color : Color)
  | LineWidth (w : ℚ)
  | LineCapOp (cap : LineCap)
  | LineJoinOp (join : LineJoin)
  | MiterLimit (limit : ℚ)
  | BeginText
  | EndText
  | SetTextMatrix (a b c d e f : ℚ)
  | TextNewline
  | TextFont (nm : String) (size : ℚ)
  | CharSpacing (char_space : ℚ)
  | WordSpacing (word_space : ℚ)
  | TextRise (rise : ℚ)
  | TextDraw (text : List ℕ)
  | TextDrawAdjusted
  | Unsupported
  deriving DecidableEq, Repr

/-- Modelled from the spec: `PdfString::to_string_lossy` of the external
`pdf` crate, "Lossily decode `text` to a display string (unmappable bytes
replaced)".  Bytes below 128 (plain ASCII) decode to themselves; any other
byte is replaced by the Unicode replacement character U+FFFD. -/
def to_string_lossy (bytes : List ℕ) : String :=
  String.mk (bytes.map fun b => if b < 128 then Char.ofNat b else Char.ofNat 0xFFFD)

/-- The string `format!("{}px sans-serif", size)` set as the canvas font. -/
def fontString (size : ℚ) : String := toString size ++ "px sans-serif"

/-- `PdfRenderer::render_operation` (src/lib.rs lines 259-451): dispatch of a
single operator.  Returns the updated text state together with the surface
calls issued, wrapped in the `Result<(), JsValue>` of the source — note that
every fallible canvas call inside the dispatch has its error discarded with
`.ok()` in the source, so no arm can produce an `Err`. -/
def render_operation (op : Op) (ts : TextState) :
    Except String (TextState × List SurfaceCall) :=
  match op with
  | .Save => .ok (ts, [.save])
  | .Restore => .ok (ts, [.restore])
  | .Transform a b c d e f => .ok (ts, [.transformCall a b c d e f])
  | .MoveTo x y => .ok (ts, [.moveTo x y])
  | .LineTo x y => .ok (ts, [.lineTo x y])
  | .CurveTo c1x c1y c2x c2y x y => .ok (ts, [.bezierCurveTo c1x c1y c2x c2y x y])
  | .Rect x y w h => .ok (ts, [.rectCall x y w h])
  | .Close => .ok (ts, [.closePath])
  | .Stroke => .ok (ts, [.strokeCall, .beginPath])
  | .Fill _ => .ok (ts, [.fillCall, .beginPath])
  | .FillAndStroke _ => .ok (ts, [.fillCall, .strokeCall, .beginPath])
  | .EndPath => .ok (ts, [.beginPath])
  | .StrokeColor color => .ok (ts, [.setStrokeStyleStr (color_to_css color)])
  | .FillColor color => .ok (ts, [.setFillStyleStr (color_to_css color)])
  | .LineWidth w => .ok (ts, [.setLineWidth w])
  | .LineCapOp cap =>
      let capStr := match cap with
        | .Butt => "butt"
        | .Round => "round"
        | .Square => "square"
      .ok (ts, [.setLineCap capStr])
  | .LineJoinOp join =>
      let joinStr := match join with
        | .Miter => "miter"
        | .Round => "round"
        | .Bevel => "bevel"
      .ok (ts, [.setLineJoin joinStr])
  | .MiterLimit limit => .ok (ts, [.setMiterLimit limit])
  | .BeginText => .ok (ts.reset, [])
  | .EndText => .ok (ts, [])
  | .SetTextMatrix a b c d e f =>
      .ok ({ ts with text_matrix := ⟨a, b, c, d, e, f⟩ }, [])
  | .TextNewline =>
      let leading := ts.text_leading
      .ok ({ ts with text_matrix :=
              { ts.text_matrix with e := 0, f := ts.text_matrix.f - leading } }, [])
  | .TextFont _ size =>
      .ok ({ ts with font_size := size }, [.setFont (fontString size)])
  | .CharSpacing char_space => .ok ({ ts with char_spacing := char_space }, [])
  | .WordSpacing word_space => .ok ({ ts with word_spacing := word_space }, [])
  | .TextRise rise => .ok ({ ts with text_rise := rise }, [])
  | .TextDraw text =>
      let m := ts.text_matrix
      let text_str := to_string_lossy text
      let scaleCalls : List SurfaceCall :=
        if ts.horizontal_scaling = 100 then []
        else [.scaleCall (ts.horizontal_scaling / 100) 1]
      let riseCalls : List SurfaceCall :=
        if ts.text_rise = 0 then [] else [.translateCall 0 ts.text_rise]
      let text_width : ℚ := (text_str.utf8ByteSize : ℚ) * ts.font_size * (1 / 2)
      .ok ({ ts with text_matrix := { m with e := m.e + text_width } },
           [.save, .transformCall m.a m.b m.c m.d m.e m.f] ++
             scaleCalls ++ riseCalls ++
             [.fillText text_str 0 0, .restore])
  | .TextDrawAdjusted => .ok (ts, [])
  | .Unsupported => .ok (ts, [])

/-- Modelled from the spec: a lexical token of a content-stream part as seen
by the external `pdf::content::parse_ops` — either a token that decodes to
one operator (`some op`) or an unparsable operator (`none`). -/
abbrev Token := Option Op

/-- Modelled from the spec: `pdf::content::parse_ops` of the external `pdf`
crate.  Its type in the source is `Result<Vec<Op>, PdfError>` (src/lib.rs
line 233): a part parses to its full operator list or to one parse error
(spec section 7, "OperatorParseError (per content-stream part)"), so a part
containing an unparsable operator yields an error and no operators. -/
def parse_ops (toks : List Token) : Except String (List Op) :=
  if toks.all Option.isSome then .ok (toks.filterMap id)
  else .error "OperatorParseError"

deriving instance DecidableEq for Except

/-- One content-stream part of a page.  `dataResult` is the outcome of the
external `stream.data(&resolver)` call: the decoded token sequence, or a
stream-decode error. -/
structure StreamPart where
  dataResult : Except String (List Token)
  deriving DecidableEq, Repr

/-- One diagnostic `console_log!` warning emitted by the replay loop of
`render_page_content`. -/
inductive Warning where
  | streamDataFailed (idx : ℕ)
  | streamParseFailed (idx : ℕ)
  | opFailed
  deriving DecidableEq, Repr

/-- The inner operator loop of `render_page_content` (src/lib.rs lines
236-240): each operator is dispatched; a failing dispatch would be logged as
a warning and skipped, never aborting the loop. -/
def runOps (ops : List Op) (ts : TextState) :
    TextState × List SurfaceCall × List Warning :=
  match ops with
  | [] => (ts, [], [])
  | op :: rest =>
      match render_operation op ts with
      | .ok (ts', calls) =>
          let (ts2, cs, ws) := runOps rest ts'
          (ts2, calls ++ cs, ws)
      | .error _ =>
          let (ts2, cs, ws) := runOps rest ts
          (ts2, cs, .opFailed :: ws)

/-- The per-part loop of `render_page_content` (src/lib.rs lines 228-251):
each content-stream part has its data decoded and its operators parsed; a
stream-decode or operator-parse failure is logged and that part skipped; the
text state threads across parts. -/
def runStreams (parts : List StreamPart) (idx : ℕ) (ts : TextState) :
    TextState × List SurfaceCall × List Warning :=
  match parts with
  | [] => (ts, [], [])
  | part :: rest =>
      match part.dataResult with
      | .ok data =>
          match parse_ops data with
          | .ok operations =>
              let (ts1, cs1, ws1) := runOps operations ts
              let (ts2, cs2, ws2) := runStreams rest (idx + 1) ts1
              (ts2, cs1 ++ cs2, ws1 ++ ws2)
          | .error _ =>
              let (ts2, cs2, ws2) := runStreams rest (idx + 1) ts
              (ts2, cs2, .streamParseFailed idx :: ws2)
      | .error _ =>
          let (ts2, cs2, ws2) := runStreams rest (idx + 1) ts
          (ts2, cs2, .streamDataFailed idx :: ws2)

/-- A page's media box (`left, bottom, right, top` in page units). -/
structure MediaBox where
  left : ℚ
  bottom : ℚ
  right : ℚ
  top : ℚ
  deriving DecidableEq, Repr

/-- `page.contents` with its list of content-stream parts
(`contents.parts`). -/
structure Contents where
  parts : List StreamPart
  deriving DecidableEq, Repr

/-- A page of the parsed document (`pdf::object::Page`): `media_box()` is
fallible metadata of the external crate; `contents` is optional. -/
structure Page where
  media_box : Except String MediaBox
  contents : Option Contents
  deriving DecidableEq, Repr

/-- The parsed document handle (`pdf::file::CachedFile`): an indexed page
list; `pages().count()` is its length. -/
structure PdfFile where
  pages : List Page
  deriving DecidableEq, Repr

/-- `pdf_file.get_page(n)` of the external crate: the n-th page, or an error
when no such page exists. -/
def PdfFile.get_page (fl : PdfFile) (n : ℕ) : Except String Page :=
  match fl.pages[n]? with
  | some p => .ok p
  | none => .error "page not found"

/-- `struct PdfRenderer` (src/lib.rs lines 54-59). -/
structure PdfRenderer where
  pdf_data : List ℕ
  current_page : ℕ
  total_pages : ℕ
  pdf_file : Option PdfFile
  deriving DecidableEq, Repr

/-- `PdfRenderer::new` (src/lib.rs lines 64-73). -/
def PdfRenderer.new : PdfRenderer :=
  { pdf_data := [], current_page := 0, total_pages := 0, pdf_file := none }

/-- `PdfRenderer::load_pdf` (src/lib.rs lines 77-92).  `loadFile` stands for
the external `FileOptions::cached().load(...)` parser.  The raw byte buffer
is stored into `pdf_data` before parsing; on a parse failure the method
returns the error, leaving the rest of the prior state in place. -/
def load_pdf (loadFile : List ℕ → Except String PdfFile)
    (st : PdfRenderer) (data : List ℕ) : Except String Unit × PdfRenderer :=
  let st1 := { st with pdf_data := data }
  match loadFile st1.pdf_data with
  | .error e => (.error ("Failed to parse PDF: " ++ e), st1)
  | .ok pdf_file =>
      (.ok (), { st1 with
        total_pages := pdf_file.pages.length
        current_page := 0
        pdf_file := some pdf_file })

/-- `PdfRenderer::get_total_pages` (src/lib.rs lines 96-98). -/
def get_total_pages (st : PdfRenderer) : ℕ := st.total_pages

/-- `PdfRenderer::get_current_page` (src/lib.rs lines 102-104). -/
def get_current_page (st : PdfRenderer) : ℕ := st.current_page

/-- `PdfRenderer::set_current_page` (src/lib.rs lines 108-114): mutating
method, modelled as result plus post-call state. -/
def set_current_page (st : PdfRenderer) (page : ℕ) :
    Except String Unit × PdfRenderer :=
  if st.total_pages ≤ page then (.error "Page number out of range", st)
  else (.ok (), { st with current_page := page })

/-- `PdfRenderer::render_page_content` (src/lib.rs lines 199-256).  `ok`
tells which fallible canvas calls succeed; the source propagates failures of
the setup `translate` and `scale` here with `?`, so those two abort the
call.  On success the value is the ordered surface-call trace and the logged
warnings. -/
def render_page_content (ok : SurfaceCall → Bool) (page : Page) (height : ℚ) :
    Except String (List SurfaceCall × List Warning) :=
  if ok (.translateCall 0 height) = false then .error "Failed to translate"
  else if ok (.scaleCall 1 (-1)) = false then .error "Failed to flip Y axis"
  else
    match page.contents with
    | some contents =>
        let (_, calls, warns) := runStreams contents.parts 0 TextState.new
        .ok ([.save, .translateCall 0 height, .scaleCall 1 (-1), .beginPath]
               ++ calls ++ [.restore], warns)
    | none =>
        .ok ([.save, .translateCall 0 height, .scaleCall 1 (-1), .restore], [])

/-- `PdfRenderer::render_page` (src/lib.rs lines 118-168).  `getContext` is
the outcome of acquiring and casting the canvas 2D context (the three
`map_err`/`ok_or_else` failure modes collapse into its error string); `ok`
as in `render_page_content`. -/
def render_page (ok : SurfaceCall → Bool) (getContext : Except String Unit)
    (st : PdfRenderer) (page_num : ℕ) (scale : ℚ) :
    Except String (List SurfaceCall × List Warning) :=
  if st.total_pages ≤ page_num then .error "Page number out of range"
  else
    match st.pdf_file with
    | none => .error "PDF not loaded"
    | some pdf_file =>
        match getContext with
        | .error e => .error e
        | .ok () =>
            match pdf_file.get_page page_num with
            | .error e => .error ("Failed to get page: " ++ e)
            | .ok page =>
                match page.media_box with
                | .error e => .error ("Failed to get media box: " ++ e)
                | .ok media_box =>
                    let base_width := media_box.right - media_box.left
                    let base_height := media_box.top - media_box.bottom
                    let width := toU32 (base_width * scale)
                    let height := toU32 (base_height * scale)
                    if ok (.scaleCall scale scale) = false then
                      .error "Failed to scale context"
                    else
                      match render_page_content ok page base_height with
                      | .error e => .error e
                      | .ok (calls, warns) =>
                          .ok ([.setWidth width, .setHeight height,
                                .setFillStyleStr "#ffffff",
                                .fillRect 0 0 (width : ℚ) (height : ℚ),
                                .scaleCall scale scale] ++ calls, warns)

/-- `PdfRenderer::get_page_dimensions` (src/lib.rs lines 172-193): range
check, page lookup, media box read; the returned object carries
`width = right - left` and `height = top - bottom`. -/
def get_page_dimensions (st : PdfRenderer) (page_num : ℕ) :
    Except String (ℚ × ℚ) :=
  if st.total_pages ≤ page_num then .error "Page number out of range"
  else
    match st.pdf_file with
    | none => .error "PDF not loaded"
    | some pdf_file =>
        match pdf_file.get_page page_num with
        | .error e => .error ("Failed to get page: " ++ e)
        | .ok page =>
            match page.media_box with
            | .error e => .error ("Failed to get media box: " ++ e)
            | .ok media_box =>
                .ok (media_box.right - media_box.left,
                     media_box.top - media_box.bottom)

/-- An affine transform in canvas convention: the point `(x, y)` maps to
`(a x + c y + e, b x + d y + f)`. -/
structure CTM where
  a : ℚ
  b : ℚ
  c : ℚ
  d : ℚ
  e : ℚ
  f : ℚ
  deriving DecidableEq, Repr

/-- Apply a canvas transform to a point. -/
def CTM.apply (m : CTM) (p : ℚ × ℚ) : ℚ × ℚ :=
  (m.a * p.1 + m.c * p.2 + m.e, m.b * p.1 + m.d * p.2 + m.f)

/-- The identity transform. -/
def CTM.one : CTM := ⟨1, 0, 0, 1, 0, 0⟩

/-- Composition in application order: `(m.comp n).apply p = m.apply (n.apply
p)`; canvas `transform`/`scale`/`translate` calls post-multiply the current
transform, i.e. replace `m` by `m.comp n`. -/
def CTM.comp (m n : CTM) : CTM :=
  ⟨m.a * n.a + m.c * n.b, m.b * n.a + m.d * n.b,
   m.a * n.c + m.c * n.d, m.b * n.c + m.d * n.d,
   m.a * n.e + m.c * n.f + m.e, m.b * n.e + m.d * n.f + m.f⟩

/-- Canvas `scale(sx, sy)`. -/
def CTM.scaleM (sx sy : ℚ) : CTM := ⟨sx, 0, 0, sy, 0, 0⟩

/-- Canvas `translate(tx, ty)`. -/
def CTM.translateM (tx ty : ℚ) : CTM := ⟨1, 0, 0, 1, tx, ty⟩

/-- Fold the transform-affecting calls of a trace into the current transform
they establish, starting from `m`: `scale`, `translate` and `transform` each
post-multiply, all other calls leave the transform unchanged. -/
def ctmOfCalls (calls : List SurfaceCall) (m : CTM) : CTM :=
  match calls with
  | [] => m
  | call :: rest =>
      let m' := match call with
        | .scaleCall sx sy => m.comp (CTM.scaleM sx sy)
        | .translateCall tx ty => m.comp (CTM.translateM tx ty)
        | .transformCall a b c d e f => m.comp ⟨a, b, c, d, e, f⟩
        | _ => m
      ctmOfCalls rest m'

/-- The fixed setup prefix a successful `render_page` call issues before any
operator replay: resize to the integer dimensions, white background fill,
zoom scale, then the `save` / `translate(0, height)` / `scale(1, -1)` flip of
`render_page_content`. -/
def pageSetupCalls (w h : ℕ) (height scale : ℚ) : List SurfaceCall :=
  [.setWidth w, .setHeight h, .setFillStyleStr "#ffffff",
   .fillRect 0 0 (w : ℚ) (h : ℚ), .scaleCall scale scale,
   .save, .translateCall 0 height, .scaleCall 1 (-1)]

/-- The text state after dispatching one operator (`render_operation` never
fails, so the error fallback is never taken). -/
def textStateAfter (op : Op) (ts : TextState) : TextState :=
  match render_operation op ts with
  | .ok (ts', _) => ts'
  | .error _ => ts

/-- The surface calls issued by dispatching one operator. -/
def callsOf (op : Op) (ts : TextState) : List SurfaceCall :=
  match render_operation op ts with
  | .ok (_, calls) => calls
  | .error _ => []

/-- Discriminator: is this operator the text-object begin (`BT`)? -/
def Op.isBeginText : Op → Bool
  | .BeginText => true
  | _ => false

/-- Discriminator: is this operator a set-text-matrix (`Tm`)? -/
def Op.isSetTextMatrix : Op → Bool
  | .SetTextMatrix _ _ _ _ _ _ => true
  | _ => false

/-- Discriminator: is this operator a set-font (`Tf`)? -/
def Op.isTextFont : Op → Bool
  | .TextFont _ _ => true
  | _ => false

/-- Discriminator: is this operator set-char-spacing (`Tc`)? -/
def Op.isCharSpacing : Op → Bool
  | .CharSpacing _ => true
  | _ => false

/-- Discriminator: is this operator set-word-spacing (`Tw`)? -/
def Op.isWordSpacing : Op → Bool
  | .WordSpacing _ => true
  | _ => false

/-- Discriminator: is this operator set-text-rise (`Ts`)? -/
def Op.isTextRise : Op → Bool
  | .TextRise _ => true
  | _ => false

/-- The operator-replay section of a successful render: `begin_path` plus the
calls replayed from the page's content-stream parts (empty when the page has
no contents entry). -/
def contentBody (page : Page) : List SurfaceCall :=
  match page.contents with
  | some contents => .beginPath :: (runStreams contents.parts 0 TextState.new).2.1
  | none => []

/-- The warnings logged while replaying a page's content-stream parts. -/
def contentWarns (page : Page) : List Warning :=
  match page.contents with
  | some contents => (runStreams contents.parts 0 TextState.new).2.2
  | none => []

/-- A US-letter media box `[0, 0, 612, 792]`. -/
def mbLetter : MediaBox := ⟨0, 0, 612, 792⟩

/-- A letter-sized page with no content streams. -/
def pageA : Page := { media_box := .ok mbLetter, contents := none }

/-- A one-page document built from `pageA`. -/
def fileA : PdfFile := ⟨[pageA]⟩

/-- A renderer state that has successfully loaded `fileA`. -/
def stA : PdfRenderer :=
  { pdf_data := [], current_page := 0, total_pages := 1, pdf_file := some fileA }

/-- A page whose media box is the degenerate rectangle `[0, 0, 0, 0]`. -/
def degPage : Page := { media_box := .ok ⟨0, 0, 0, 0⟩, contents := none }

/-- A one-page document built from `degPage`. -/
def degFile : PdfFile := ⟨[degPage]⟩

/-- A renderer state that has loaded `degFile`. -/
def degSt : PdfRenderer :=
  { pdf_data := [], current_page := 0, total_pages := 1, pdf_file := some degFile }

/-- A content-stream part holding a single parseable move-to operator. -/
def partMove : StreamPart := ⟨.ok [some (.MoveTo 10 20)]⟩

/-- A letter-sized page whose contents are the single part `partMove`. -/
def pageB : Page := { media_box := .ok mbLetter, contents := some ⟨[partMove]⟩ }

/-- A one-page document built from `pageB`. -/
def fileB : PdfFile := ⟨[pageB]⟩

/-- A renderer state that has loaded `fileB`. -/
def stB : PdfRenderer :=
  { pdf_data := [], current_page := 0, total_pages := 1, pdf_file := some fileB }

/-- A page of fractional width `100.75` (and height `200`), no contents. -/
def pageC : Page := { media_box := .ok ⟨0, 0, 403 / 4, 200⟩, contents := none }

/-- A one-page document built from `pageC`. -/
def fileC : PdfFile := ⟨[pageC]⟩

/-- A renderer state that has loaded `fileC`. -/
def stC : PdfRenderer :=
  { pdf_data := [], current_page := 0, total_pages := 1, pdf_file := some fileC }

/-- A content-stream part whose token run holds one unparsable operator
(`none`) between two valid ones. -/
def badPart : StreamPart :=
  ⟨.ok [some (.MoveTo 1 2), none, some (.LineTo 3 4)]⟩

/-- A 100-by-100 page whose single content-stream part is `badPart`. -/
def pageD : Page := { media_box := .ok ⟨0, 0, 100, 100⟩, contents := some ⟨[badPart]⟩ }

/-- The media box of `pageD`. -/
def mbD : MediaBox := ⟨0, 0, 100, 100⟩

/-- A one-page document built from `pageD`. -/
def fileD : PdfFile := ⟨[pageD]⟩

/-- A renderer state that has loaded `fileD`. -/
def stD : PdfRenderer :=
  { pdf_data := [], current_page := 0, total_pages := 1, pdf_file := some fileD }

lemma render_operation_isOk (op : Op) (ts : TextState) :
    ∃ r, render_operation op ts = .ok r := by
  cases op <;> exact ⟨_, rfl⟩

lemma runOps_no_opFailed (ops : List Op) (ts : TextState) :
    (runOps ops ts).2.2 = [] := by
  induction ops generalizing ts with
  | nil => rfl
  | cons op rest ih =>
      obtain ⟨⟨ts', calls⟩, h⟩ := render_operation_isOk op ts
      simp [runOps, h, ih]

/-- C10: for every operator variant and every text state, the per-operator
dispatch `render_operation` returns `Ok` — every fallible surface call inside
it has its error discarded with `.ok()` — so no operator-apply error is ever
produced, and the failure-logging branch of the replay loop (the `opFailed`
warning of `runOps`) is unreachable: the operator loop emits no such
warning for any operator list. -/
theorem claim_C10_dispatch_never_fails :
    (∀ (op : Op) (ts : TextState), ∃ r, render_operation op ts = .ok r) ∧
    (∀ (ops : List Op) (ts : TextState), (runOps ops ts).2.2 = []) :=
  ⟨render_operation_isOk, runOps_no_opFailed⟩

/-- C3 fails as stated at gray(0.5): the Rust `as u8` cast truncates toward
zero, so `gray(0.5)` (value 127.5 before the cast) maps to `(127,127,127)`,
not to the claimed `round(0.5·255) = 128` gray. -/
theorem claim_C3_counterexample :
    color_to_css (.Gray (1 / 2)) = cssRgb 127 127 127 ∧
    color_to_css (.Gray (1 / 2)) ≠ cssRgb 128 128 128 := by
  have h : toU8 ((1 : ℚ) / 2 * 255) = 127 := by
    unfold toU8
    rw [if_neg (by norm_num), if_neg (by norm_num),
      show (⌊(1 : ℚ) / 2 * 255⌋ : ℤ) = 127 by norm_num]
    decide
  constructor
  · simp only [color_to_css]
    rw [h]
  · simp only [color_to_css]
    rw [h]
    decide

/-- C3 (amended): the Color Converter maps gray(g) to (v,v,v) with
v = trunc(g·255) saturated to [0,255] — the Rust `as u8` cast truncates
toward zero rather than rounding — rgb componentwise by trunc(·255)
saturated, cmyk by r = trunc((1−c)(1−k)·255) (g and b likewise with m and y),
and any other color model to opaque black; in particular
gray(0.5)→(127,127,127), cmyk(0,0,0,1)→(0,0,0), cmyk(0,0,0,0)→(255,255,255). -/
theorem claim_C3_amended :
    (∀ g, color_to_css (.Gray g) =
      cssRgb (toU8 (g * 255)) (toU8 (g * 255)) (toU8 (g * 255))) ∧
    (∀ r g b, color_to_css (.Rgb r g b) =
      cssRgb (toU8 (r * 255)) (toU8 (g * 255)) (toU8 (b * 255))) ∧
    (∀ c m y k, color_to_css (.Cmyk c m y k) =
      cssRgb (toU8 ((1 - c) * (1 - k) * 255)) (toU8 ((1 - m) * (1 - k) * 255))
        (toU8 ((1 - y) * (1 - k) * 255))) ∧
    color_to_css .Other = cssRgb 0 0 0 ∧
    color_to_css (.Gray (1 / 2)) = cssRgb 127 127 127 ∧
    color_to_css (.Cmyk 0 0 0 1) = cssRgb 0 0 0 ∧
    color_to_css (.Cmyk 0 0 0 0) = cssRgb 255 255 255 := by
  have h1 : toU8 ((1 : ℚ) / 2 * 255) = 127 := by
    unfold toU8
    rw [if_neg (by norm_num), if_neg (by norm_num),
      show (⌊(1 : ℚ) / 2 * 255⌋ : ℤ) = 127 by norm_num]
    decide
  refine ⟨fun _ => rfl, fun _ _ _ => rfl, fun _ _ _ _ => rfl, by decide,
    ?_, ?_, ?_⟩
  · simp only [color_to_css]
    rw [h1]
  · simp only [color_to_css]
    norm_num [toU8]
  · simp only [color_to_css]
    norm_num [toU8]

/-- C8: the begin-text operator resets exactly the text matrix to the
identity and leaves every other Text State field unchanged; for every
operator other than begin-text and set-text-matrix the linear part
(a,b,c,d) of the matrix is preserved, so no other operator can reset the
matrix; and each remaining field is changed only by its own setter: font
size only by set-font, char spacing only by `Tc`, word spacing only by `Tw`,
rise only by `Ts`, while leading and horizontal scaling are never written by
any operator. -/
theorem claim_C8_text_state_persistence :
    (∀ ts : TextState,
      textStateAfter .BeginText ts = { ts with text_matrix := TMatrix.id }) ∧
    (∀ (op : Op) (ts : TextState),
      op.isBeginText = false → op.isSetTextMatrix = false →
      (textStateAfter op ts).text_matrix.a = ts.text_matrix.a ∧
      (textStateAfter op ts).text_matrix.b = ts.text_matrix.b ∧
      (textStateAfter op ts).text_matrix.c = ts.text_matrix.c ∧
      (textStateAfter op ts).text_matrix.d = ts.text_matrix.d) ∧
    (∀ (op : Op) (ts : TextState), op.isTextFont = false →
      (textStateAfter op ts).font_size = ts.font_size) ∧
    (∀ (op : Op) (ts : TextState), op.isCharSpacing = false →
      (textStateAfter op ts).char_spacing = ts.char_spacing) ∧
    (∀ (op : Op) (ts : TextState), op.isWordSpacing = false →
      (textStateAfter op ts).word_spacing = ts.word_spacing) ∧
    (∀ (op : Op) (ts : TextState), op.isTextRise = false →
      (textStateAfter op ts).text_rise = ts.text_rise) ∧
    (∀ (op : Op) (ts : TextState),
      (textStateAfter op ts).text_leading = ts.text_leading) ∧
    (∀ (op : Op) (ts : TextState),
      (textStateAfter op ts).horizontal_scaling = ts.horizontal_scaling) := by
  refine ⟨fun ts => rfl, ?_, ?_, ?_, ?_, ?_, ?_, ?_⟩ <;>
    intro op ts <;>
    cases op <;>
    simp [textStateAfter, render_operation, TextState.reset,
      Op.isBeginText, Op.isSetTextMatrix, Op.isTextFont, Op.isCharSpacing,
      Op.isWordSpacing, Op.isTextRise]

/-- Witness for C8 at the concrete operator `Stroke` and state
`TextState.new`. -/
theorem claim_C8_witness :
    Op.Stroke.isBeginText = false ∧ Op.Stroke.isSetTextMatrix = false ∧
    ((textStateAfter .Stroke TextState.new).text_matrix.a =
        TextState.new.text_matrix.a ∧
      (textStateAfter .Stroke TextState.new).text_matrix.b =
        TextState.new.text_matrix.b ∧
      (textStateAfter .Stroke TextState.new).text_matrix.c =
        TextState.new.text_matrix.c ∧
      (textStateAfter .Stroke TextState.new).text_matrix.d =
        TextState.new.text_matrix.d) :=
  ⟨by decide, by decide,
   claim_C8_text_state_persistence.2.1 .Stroke TextState.new (by decide)
     (by decide)⟩

/-- C4: for every index `n ≥ totalPages`, `setCurrentPage`, `renderPage` and
`pageDimensions` each fail with the range error; `setCurrentPage` returns the
state unchanged, and `renderPage`/`pageDimensions` take the state immutably
(`&self` in the source), so no renderer state changes. -/
theorem claim_C4_range_errors (st : PdfRenderer) (n : ℕ)
    (h : st.total_pages ≤ n) (ok : SurfaceCall → Bool)
    (getContext : Except String Unit) (z : ℚ) :
    set_current_page st n = (.error "Page number out of range", st) ∧
    render_page ok getContext st n z = .error "Page number out of range" ∧
    get_page_dimensions st n = .error "Page number out of range" := by
  refine ⟨?_, ?_, ?_⟩ <;>
    simp [set_current_page, render_page, get_page_dimensions, h]

/-- Witness for C4: the loaded one-page state `stA` with the out-of-range
index 5. -/
theorem claim_C4_witness :
    stA.total_pages ≤ 5 ∧
    (set_current_page stA 5 = (.error "Page number out of range", stA) ∧
      render_page (fun _ => true) (.ok ()) stA 5 1 =
        .error "Page number out of range" ∧
      get_page_dimensions stA 5 = .error "Page number out of range") :=
  ⟨by decide,
   claim_C4_range_errors stA 5 (by decide) (fun _ => true) (.ok ()) 1⟩

/-- C5 fails as stated: give the loaded state `stA` (one page, 612×792)
malformed bytes whose parse fails.  The call errors, but the prior state is
retained, not discarded: the old document handle, page count and current page
survive, and page-addressed calls on the old document still succeed
afterwards. -/
theorem claim_C5_counterexample :
    (load_pdf (fun _ => .error "bad") stA [9, 9]).1 =
      .error "Failed to parse PDF: bad" ∧
    (load_pdf (fun _ => .error "bad") stA [9, 9]).2.pdf_file = some fileA ∧
    (load_pdf (fun _ => .error "bad") stA [9, 9]).2.total_pages = 1 ∧
    (load_pdf (fun _ => .error "bad") stA [9, 9]).2.current_page =
      stA.current_page ∧
    get_page_dimensions (load_pdf (fun _ => .error "bad") stA [9, 9]).2 0 =
      .ok (612, 792) := by
  refine ⟨by decide, by decide, by decide, by decide, ?_⟩
  simp [get_page_dimensions, load_pdf, stA, fileA, pageA, PdfFile.get_page,
    mbLetter]

/-- C5 (amended): when load is given malformed document bytes it fails with a
load error and installs no new document, but the prior state is kept rather
than discarded: the previously loaded document, page count and current page
all keep their values and remain usable; only the raw byte buffer `pdf_data`
is overwritten with the new bytes before the parse attempt. -/
theorem claim_C5_amended (loadFile : List ℕ → Except String PdfFile)
    (st : PdfRenderer) (data : List ℕ) (e : String)
    (h : loadFile data = .error e) :
    load_pdf loadFile st data =
      (.error ("Failed to parse PDF: " ++ e), { st with pdf_data := data }) := by
  simp [load_pdf, h]

/-- Witness for C5 (amended) at a concrete always-failing loader and the
loaded state `stA`. -/
theorem claim_C5_witness :
    (fun _ : List ℕ => (.error "bad" : Except String PdfFile)) [9, 9] =
      .error "bad" ∧
    load_pdf (fun _ => .error "bad") stA [9, 9] =
      (.error ("Failed to parse PDF: " ++ "bad"), { stA with pdf_data := [9, 9] }) :=
  ⟨rfl, claim_C5_amended (fun _ => .error "bad") stA [9, 9] "bad" rfl⟩

/-- C9 fails as stated: `degSt` has one valid page index, but its page's
media box is the degenerate rectangle (0,0,0,0), so `get_page_dimensions`
returns width = height = 0 — the promised strict positivity does not hold. -/
theorem claim_C9_counterexample :
    0 < degSt.total_pages ∧
    get_page_dimensions degSt 0 = .ok (0, 0) ∧
    ¬ ∃ w h : ℚ, get_page_dimensions degSt 0 = .ok (w, h) ∧ 0 < w ∧ 0 < h := by
  have hdim : get_page_dimensions degSt 0 = .ok (0, 0) := by
    simp [get_page_dimensions, degSt, degFile, degPage, PdfFile.get_page]
  refine ⟨by decide, hdim, ?_⟩
  rintro ⟨w, h, heq, hw, hh⟩
  rw [hdim] at heq
  injection heq with h2
  injection h2 with hw0 hh0
  rw [← hw0] at hw
  exact lt_irrefl 0 hw

/-- C9 (amended): for every valid page index of a loaded document whose page
has a readable media box, `pageDimensions` returns width = right−left and
height = top−bottom; these are strictly positive exactly when left < right
and bottom < top — the code performs no positivity check, so a degenerate
media box yields non-positive dimensions. -/
theorem claim_C9_amended (st : PdfRenderer) (fl : PdfFile) (n : ℕ)
    (page : Page) (mb : MediaBox) (hfile : st.pdf_file = some fl)
    (hn : n < st.total_pages) (hpage : fl.pages[n]? = some page)
    (hmb : page.media_box = .ok mb) :
    get_page_dimensions st n = .ok (mb.right - mb.left, mb.top - mb.bottom) ∧
    ((0 < mb.right - mb.left ∧ 0 < mb.top - mb.bottom) ↔
      (mb.left < mb.right ∧ mb.bottom < mb.top)) := by
  constructor
  · rw [get_page_dimensions, if_neg (not_le.mpr hn), hfile]
    simp [PdfFile.get_page, hpage, hmb]
  · exact and_congr sub_pos sub_pos

/-- Witness for C9 (amended) at the loaded letter-sized state `stA`. -/
theorem claim_C9_witness :
    stA.pdf_file = some fileA ∧ 0 < stA.total_pages ∧
    fileA.pages[0]? = some pageA ∧ pageA.media_box = .ok mbLetter ∧
    (get_page_dimensions stA 0 =
        .ok (mbLetter.right - mbLetter.left, mbLetter.top - mbLetter.bottom) ∧
      ((0 < mbLetter.right - mbLetter.left ∧
          0 < mbLetter.top - mbLetter.bottom) ↔
        (mbLetter.left < mbLetter.right ∧ mbLetter.bottom < mbLetter.top))) :=
  ⟨rfl, by decide, rfl, rfl,
   claim_C9_amended stA fileA 0 pageA mbLetter rfl (by decide) rfl rfl⟩

lemma utf8ByteSize_mk (l : List Char) :
    (String.mk l).utf8ByteSize = (l.map Char.utf8Size).sum := by
  show String.utf8ByteSize.go l = _
  induction l with
  | nil => rfl
  | cons c cs ih =>
      show String.utf8ByteSize.go cs + c.utf8Size = _
      rw [ih, List.map_cons, List.sum_cons, Nat.add_comm]

lemma utf8Size_ofNat_lt_128 : ∀ b : ℕ, b < 128 → (Char.ofNat b).utf8Size = 1 := by
  decide

lemma to_string_lossy_length (bytes : List ℕ) :
    (to_string_lossy bytes).length = bytes.length := by
  show (bytes.map _).length = bytes.length
  simp

lemma to_string_lossy_utf8_ascii (bytes : List ℕ)
    (h : ∀ b ∈ bytes, b < 128) :
    (to_string_lossy bytes).utf8ByteSize = bytes.length := by
  rw [to_string_lossy, utf8ByteSize_mk]
  induction bytes with
  | nil => rfl
  | cons b rest ih =>
      have hb : b < 128 := h b (by simp)
      rw [List.map_cons, List.map_cons, List.sum_cons, if_pos hb,
        utf8Size_ofNat_lt_128 b hb,
        ih (fun x hx => h x (List.mem_cons_of_mem _ hx))]
      simp [Nat.add_comm]

/-- C7 fails as stated: the advance uses the UTF-8 byte length of the decoded
string (Rust `str::len`), not its character count.  Byte 0xFF decodes to the
single replacement character (three UTF-8 bytes), so from the fresh text
state (font size 12, e = 0) one show-text of `[0xFF]` advances e to
3·12·0.5 = 18, while the claimed characterCount × fontSize × 0.5 is 6. -/
theorem claim_C7_counterexample :
    (to_string_lossy [255]).length = 1 ∧
    TextState.new.font_size = 12 ∧
    (textStateAfter (.TextDraw [255]) TextState.new).text_matrix.e = 18 ∧
    ((to_string_lossy [255]).length : ℚ) * TextState.new.font_size * (1 / 2) = 6 ∧
    (18 : ℚ) ≠ 6 := by
  have hu : (to_string_lossy [255]).utf8ByteSize = 3 := by decide
  have hl : (to_string_lossy [255]).length = 1 := by decide
  refine ⟨hl, rfl, ?_, ?_, by norm_num⟩
  · simp [textStateAfter, render_operation, hu, TextState.new, TMatrix.id]
    norm_num
  · rw [hl]
    show (1 : ℚ) * TextState.new.font_size * (1 / 2) = 6
    norm_num [TextState.new]

/-- C7 (amended): after every show-text operator the text matrix's e
component has advanced by utf8ByteLength(decodedText) × fontSize × 0.5 (the
Rust `str::len` is the UTF-8 byte count), which equals
characterCount × fontSize × 0.5 whenever the decoded text is ASCII; the draw
itself transform-concats the current text matrix (so the run's local origin
sits at the matrix's translation), and font size is unchanged by a draw.  In
particular two consecutive show-text operators "AB" then "CD" with no
intervening matrix-set and font size F place the second run's local origin at
x-offset 2·F·0.5 relative to the first. -/
theorem claim_C7_amended (ts : TextState) (bytes : List ℕ) :
    (textStateAfter (.TextDraw bytes) ts).text_matrix.e =
      ts.text_matrix.e +
        ((to_string_lossy bytes).utf8ByteSize : ℚ) * ts.font_size * (1 / 2) ∧
    (callsOf (.TextDraw bytes) ts)[1]? =
      some (.transformCall ts.text_matrix.a ts.text_matrix.b ts.text_matrix.c
        ts.text_matrix.d ts.text_matrix.e ts.text_matrix.f) ∧
    (textStateAfter (.TextDraw bytes) ts).font_size = ts.font_size ∧
    ((∀ b ∈ bytes, b < 128) →
      (to_string_lossy bytes).utf8ByteSize = (to_string_lossy bytes).length) ∧
    (textStateAfter (.TextDraw [65, 66]) ts).text_matrix.e - ts.text_matrix.e =
      2 * ts.font_size * (1 / 2) ∧
    (textStateAfter (.TextDraw [67, 68])
          (textStateAfter (.TextDraw [65, 66]) ts)).text_matrix.e -
        (textStateAfter (.TextDraw [65, 66]) ts).text_matrix.e =
      2 * ts.font_size * (1 / 2) := by
  have hAB : (to_string_lossy [65, 66]).utf8ByteSize = 2 := by decide
  have hCD : (to_string_lossy [67, 68]).utf8ByteSize = 2 := by decide
  refine ⟨?_, ?_, ?_, ?_, ?_, ?_⟩
  · simp [textStateAfter, render_operation]
  · simp [callsOf, render_operation]
  · simp [textStateAfter, render_operation]
  · intro h
    rw [to_string_lossy_utf8_ascii bytes h, to_string_lossy_length]
  · simp [textStateAfter, render_operation, hAB]
  · simp [textStateAfter, render_operation, hAB, hCD]

lemma get_page_ok_iff {fl : PdfFile} {n : ℕ} {page : Page} :
    fl.get_page n = .ok page ↔ fl.pages[n]? = some page := by
  unfold PdfFile.get_page
  cases h : fl.pages[n]? <;> simp

lemma render_page_content_ok_inv {ok : SurfaceCall → Bool} {page : Page}
    {height : ℚ} {cs : List SurfaceCall} {ws : List Warning}
    (h : render_page_content ok page height = .ok (cs, ws)) :
    cs = [.save, .translateCall 0 height, .scaleCall 1 (-1)] ++
        contentBody page ++ [.restore] ∧
    ws = contentWarns page := by
  simp only [render_page_content] at h
  split at h
  · simp at h
  · split at h
    · simp at h
    · split at h
      · rename_i contents hc
        simp only [Except.ok.injEq, Prod.mk.injEq] at h
        obtain ⟨h1, h2⟩ := h
        refine ⟨?_, ?_⟩
        · rw [← h1]
          simp [contentBody, hc]
        · rw [← h2]
          simp [contentWarns, hc]
      · rename_i hc
        simp only [Except.ok.injEq, Prod.mk.injEq] at h
        obtain ⟨h1, h2⟩ := h
        refine ⟨?_, ?_⟩
        · rw [← h1]
          simp [contentBody, hc]
        · rw [← h2]
          simp [contentWarns, hc]

lemma render_page_ok_inv {ok : SurfaceCall → Bool} {gc : Except String Unit}
    {st : PdfRenderer} {n : ℕ} {z : ℚ} {tr : List SurfaceCall}
    {ws : List Warning} (h : render_page ok gc st n z = .ok (tr, ws)) :
    ∃ fl page mb, st.pdf_file = some fl ∧ n < st.total_pages ∧
      fl.pages[n]? = some page ∧ page.media_box = .ok mb ∧
      tr = pageSetupCalls (toU32 ((mb.right - mb.left) * z))
          (toU32 ((mb.top - mb.bottom) * z)) (mb.top - mb.bottom) z ++
        contentBody page ++ [.restore] ∧
      ws = contentWarns page := by
  simp only [render_page] at h
  split at h
  · simp at h
  · rename_i hle
    split at h
    · simp at h
    · rename_i fl hfl
      split at h
      · simp at h
      · split at h
        · simp at h
        · rename_i page hpage
          split at h
          · simp at h
          · rename_i mb hmb
            split at h
            · simp at h
            · split at h
              · simp at h
              · rename_i calls warns hpc
                obtain ⟨hcs, hws⟩ := render_page_content_ok_inv hpc
                simp only [Except.ok.injEq, Prod.mk.injEq] at h
                obtain ⟨h1, h2⟩ := h
                refine ⟨fl, page, mb, hfl, not_le.mp hle,
                  get_page_ok_iff.mp hpage, hmb, ?_, ?_⟩
                · rw [← h1, hcs]
                  simp [pageSetupCalls]
                · rw [← h2, hws]

lemma render_page_success (ok : SurfaceCall → Bool) (st : PdfRenderer)
    (fl : PdfFile) (n : ℕ) (page : Page) (mb : MediaBox) (z : ℚ)
    (hfl : st.pdf_file = some fl) (hn : n < st.total_pages)
    (hpage : fl.pages[n]? = some page) (hmb : page.media_box = .ok mb)
    (h1 : ok (.translateCall 0 (mb.top - mb.bottom)) = true)
    (h2 : ok (.scaleCall 1 (-1)) = true)
    (h3 : ok (.scaleCall z z) = true) :
    render_page ok (.ok ()) st n z =
      .ok (pageSetupCalls (toU32 ((mb.right - mb.left) * z))
          (toU32 ((mb.top - mb.bottom) * z)) (mb.top - mb.bottom) z ++
        contentBody page ++ [.restore], contentWarns page) := by
  have hgp : fl.get_page n = .ok page := get_page_ok_iff.mpr hpage
  cases hc : page.contents with
  | some contents =>
      simp [render_page, hfl, hgp, hmb, not_le.mpr hn, h1, h2, h3,
        render_page_content, hc, contentBody, contentWarns, pageSetupCalls]
  | none =>
      simp [render_page, hfl, hgp, hmb, not_le.mpr hn, h1, h2, h3,
        render_page_content, hc, contentBody, contentWarns, pageSetupCalls]

lemma toU32_eval (q : ℚ) (m : ℤ) (h0 : 0 < q) (hlt : q < 4294967295)
    (hf : ⌊q⌋ = m) : toU32 q = m.toNat := by
  rw [toU32, if_neg (not_le.mpr h0), if_neg (not_le.mpr hlt), hf]

lemma render_stC_eval :
    render_page (fun _ => true) (.ok ()) stC 0 1 =
      .ok (pageSetupCalls 100 200 200 1 ++ [.restore], []) := by
  have h := render_page_success (fun _ => true) stC fileC 0 pageC
    ⟨0, 0, 403 / 4, 200⟩ 1 rfl (by decide) rfl rfl rfl rfl rfl
  rw [h]
  have hw : toU32 ((403 / 4 : ℚ)) = 100 := by
    rw [toU32_eval ((403 / 4 : ℚ)) 100 (by norm_num) (by norm_num) (by norm_num)]
    rfl
  have hh : toU32 ((200 : ℚ)) = 200 := by
    rw [toU32_eval ((200 : ℚ)) 200 (by norm_num) (by norm_num) (by norm_num)]
    rfl
  simp only [contentBody, contentWarns, pageC]
  norm_num [hw, hh]

lemma render_stD_eval :
    render_page (fun _ => true) (.ok ()) stD 0 1 =
      .ok (pageSetupCalls 100 100 100 1 ++ [.beginPath, .restore],
        [.streamParseFailed 0]) := by
  have h := render_page_success (fun _ => true) stD fileD 0 pageD
    ⟨0, 0, 100, 100⟩ 1 rfl (by decide) rfl rfl rfl rfl rfl
  rw [h]
  have hw : toU32 ((100 : ℚ)) = 100 := by
    rw [toU32_eval ((100 : ℚ)) 100 (by norm_num) (by norm_num) (by norm_num)]
    rfl
  simp only [contentBody, contentWarns, pageD, badPart, runStreams, parse_ops]
  norm_num [hw]

lemma render_stB_eval :
    render_page (fun _ => true) (.ok ()) stB 0 2 =
      .ok (pageSetupCalls 1224 1584 792 2 ++
        [.beginPath, .moveTo 10 20, .restore], []) := by
  have h := render_page_success (fun _ => true) stB fileB 0 pageB mbLetter 2
    rfl (by decide) rfl rfl rfl rfl rfl
  rw [h]
  have hw : toU32 ((mbLetter.right - mbLetter.left) * 2) = 1224 :=
    toU32_eval _ 1224 (by norm_num [mbLetter]) (by norm_num [mbLetter])
      (by norm_num [mbLetter])
  have hh : toU32 ((mbLetter.top - mbLetter.bottom) * 2) = 1584 :=
    toU32_eval _ 1584 (by norm_num [mbLetter]) (by norm_num [mbLetter])
      (by norm_num [mbLetter])
  have hw2 : toU32 ((1224 : ℚ)) = 1224 := by
    rw [toU32_eval ((1224 : ℚ)) 1224 (by norm_num) (by norm_num) (by norm_num)]
    rfl
  have hh2 : toU32 ((1584 : ℚ)) = 1584 := by
    rw [toU32_eval ((1584 : ℚ)) 1584 (by norm_num) (by norm_num) (by norm_num)]
    rfl
  simp only [contentBody, contentWarns, pageB, partMove, runStreams, parse_ops,
    runOps, render_operation, mbLetter, List.filterMap_cons, List.filterMap_nil,
    id_eq]
  norm_num [hw, hh, hw2, hh2, mbLetter, runOps, render_operation]

/-- C2: on every successful render call the trace begins with the fixed setup
prefix `pageSetupCalls`, issued exactly once before any operator replay; the
transform-affecting calls of that prefix fold (in canvas post-multiplication
order) to exactly scale(zoom) ∘ translate(0, pageHeight) ∘ scale(1, −1); the
composed transform sends a page point (x, y) on a page of height H = top −
bottom at zoom Z to pixel (x·Z, (H−y)·Z); and a move-to operator passes its
point through unchanged into that transformed space. -/
theorem claim_C2_transform (ok : SurfaceCall → Bool) (gc : Except String Unit)
    (st : PdfRenderer) (n : ℕ) (z : ℚ) (tr : List SurfaceCall)
    (ws : List Warning) (h : render_page ok gc st n z = .ok (tr, ws)) :
    ∃ mb : MediaBox, ∃ body : List SurfaceCall,
      tr = pageSetupCalls (toU32 ((mb.right - mb.left) * z))
          (toU32 ((mb.top - mb.bottom) * z)) (mb.top - mb.bottom) z ++ body ∧
      ctmOfCalls (pageSetupCalls (toU32 ((mb.right - mb.left) * z))
          (toU32 ((mb.top - mb.bottom) * z)) (mb.top - mb.bottom) z) CTM.one =
        (CTM.scaleM z z).comp ((CTM.translateM 0 (mb.top - mb.bottom)).comp
          (CTM.scaleM 1 (-1))) ∧
      (∀ x y : ℚ,
        ((CTM.scaleM z z).comp ((CTM.translateM 0 (mb.top - mb.bottom)).comp
            (CTM.scaleM 1 (-1)))).apply (x, y) =
          (x * z, ((mb.top - mb.bottom) - y) * z)) ∧
      (∀ (x y : ℚ) (ts : TextState),
        render_operation (.MoveTo x y) ts = .ok (ts, [.moveTo x y])) := by
  obtain ⟨fl, page, mb, hfl, hn, hpage, hmb, htr, hws⟩ := render_page_ok_inv h
  refine ⟨mb, contentBody page ++ [.restore], ?_, ?_, ?_, fun x y ts => rfl⟩
  · rw [htr, List.append_assoc]
  · simp [ctmOfCalls, pageSetupCalls, CTM.comp, CTM.one, CTM.scaleM,
      CTM.translateM, CTM.mk.injEq]
  · intro x y
    simp [CTM.apply, CTM.comp, CTM.scaleM, CTM.translateM, Prod.mk.injEq]
    constructor <;> ring

/-- Witness for C2: the loaded one-page state `stB` rendered at zoom 2 with
an all-succeeding surface. -/
theorem claim_C2_witness :
    render_page (fun _ => true) (.ok ()) stB 0 2 =
      .ok (pageSetupCalls 1224 1584 792 2 ++
        [.beginPath, .moveTo 10 20, .restore], []) ∧
    (∃ mb : MediaBox, ∃ body : List SurfaceCall,
      pageSetupCalls 1224 1584 792 2 ++
          [.beginPath, .moveTo 10 20, .restore] =
        pageSetupCalls (toU32 ((mb.right - mb.left) * 2))
          (toU32 ((mb.top - mb.bottom) * 2)) (mb.top - mb.bottom) 2 ++ body ∧
      ctmOfCalls (pageSetupCalls (toU32 ((mb.right - mb.left) * 2))
          (toU32 ((mb.top - mb.bottom) * 2)) (mb.top - mb.bottom) 2) CTM.one =
        (CTM.scaleM 2 2).comp ((CTM.translateM 0 (mb.top - mb.bottom)).comp
          (CTM.scaleM 1 (-1))) ∧
      (∀ x y : ℚ,
        ((CTM.scaleM 2 2).comp ((CTM.translateM 0 (mb.top - mb.bottom)).comp
            (CTM.scaleM 1 (-1)))).apply (x, y) =
          (x * 2, ((mb.top - mb.bottom) - y) * 2)) ∧
      (∀ (x y : ℚ) (ts : TextState),
        render_operation (.MoveTo x y) ts = .ok (ts, [.moveTo x y]))) :=
  ⟨render_stB_eval,
   claim_C2_transform (fun _ => true) (.ok ()) stB 0 2 _ _ render_stB_eval⟩

/-- C6 fails as stated: the surface dimensions are truncated toward zero, not
rounded.  Rendering the loaded state `stC` (page width 100.75) at zoom 1
resizes the surface to width 100, while rounding 100.75·1 gives 101; no
`setWidth 101` call occurs in the trace. -/
theorem claim_C6_counterexample :
    render_page (fun _ => true) (.ok ()) stC 0 1 =
      .ok (pageSetupCalls 100 200 200 1 ++ [.restore], []) ∧
    SurfaceCall.setWidth 101 ∉ pageSetupCalls 100 200 200 1 ++ [.restore] ∧
    round ((403 / 4 : ℚ) * 1) = 101 := by
  refine ⟨render_stC_eval, ?_, ?_⟩
  · simp [pageSetupCalls]
  · rw [round_eq]
    norm_num

/-- C6 (amended): on every successful renderPage call, before operator replay
the surface is resized to (pageWidth·zoom, pageHeight·zoom) truncated toward
zero to integers (the Rust `as u32` cast; not rounded to nearest) and then
filled opaque white over its full extent via a fill-rect covering exactly the
new integer dimensions. -/
theorem claim_C6_amended (ok : SurfaceCall → Bool) (gc : Except String Unit)
    (st : PdfRenderer) (n : ℕ) (z : ℚ) (tr : List SurfaceCall)
    (ws : List Warning) (h : render_page ok gc st n z = .ok (tr, ws)) :
    ∃ (page : Page) (mb : MediaBox),
      tr = .setWidth (toU32 ((mb.right - mb.left) * z)) ::
        .setHeight (toU32 ((mb.top - mb.bottom) * z)) ::
        .setFillStyleStr "#ffffff" ::
        .fillRect 0 0 (toU32 ((mb.right - mb.left) * z) : ℚ)
          (toU32 ((mb.top - mb.bottom) * z) : ℚ) ::
        ([.scaleCall z z, .save, .translateCall 0 (mb.top - mb.bottom),
          .scaleCall 1 (-1)] ++ contentBody page ++ [.restore]) := by
  obtain ⟨fl, page, mb, _, _, _, _, htr, _⟩ := render_page_ok_inv h
  refine ⟨page, mb, ?_⟩
  rw [htr]
  simp [pageSetupCalls]

/-- Witness for C6 (amended) at the concrete state `stC`, zoom 1, with an
all-succeeding surface. -/
theorem claim_C6_witness :
    render_page (fun _ => true) (.ok ()) stC 0 1 =
      .ok (pageSetupCalls 100 200 200 1 ++ [.restore], []) ∧
    (∃ (page : Page) (mb : MediaBox),
      pageSetupCalls 100 200 200 1 ++ [.restore] =
        .setWidth (toU32 ((mb.right - mb.left) * 1)) ::
        .setHeight (toU32 ((mb.top - mb.bottom) * 1)) ::
        .setFillStyleStr "#ffffff" ::
        .fillRect 0 0 (toU32 ((mb.right - mb.left) * 1) : ℚ)
          (toU32 ((mb.top - mb.bottom) * 1) : ℚ) ::
        ([.scaleCall 1 1, .save, .translateCall 0 (mb.top - mb.bottom),
          .scaleCall 1 (-1)] ++ contentBody page ++ [.restore])) :=
  ⟨render_stC_eval,
   claim_C6_amended (fun _ => true) (.ok ()) stC 0 1 _ _ render_stC_eval⟩

/-- C1 fails as stated: render the loaded state `stD`, whose single content
stream holds one unparsable operator between two valid ones (move-to (1,2)
and line-to (3,4)).  The operator-parse failure makes the whole part's parse
fail, so neither valid operator's surface call is issued — yet the render
call still returns success, logging one stream-parse warning. -/
theorem claim_C1_counterexample :
    render_page (fun _ => true) (.ok ()) stD 0 1 =
      .ok (pageSetupCalls 100 100 100 1 ++ [.beginPath, .restore],
        [.streamParseFailed 0]) ∧
    SurfaceCall.moveTo 1 2 ∉
      pageSetupCalls 100 100 100 1 ++ [.beginPath, .restore] ∧
    SurfaceCall.lineTo 3 4 ∉
      pageSetupCalls 100 100 100 1 ++ [.beginPath, .restore] := by
  refine ⟨render_stD_eval, ?_, ?_⟩ <;> simp [pageSetupCalls]

lemma parse_ops_map_some (ops : List Op) : parse_ops (ops.map some) = .ok ops := by
  simp [parse_ops, List.all_map, Function.comp, List.filterMap_map]

lemma parse_ops_has_none {toks : List Token} (h : none ∈ toks) :
    parse_ops toks = .error "OperatorParseError" := by
  have hall : toks.all Option.isSome = false := by
    rw [List.all_eq_false]
    exact ⟨none, h, by simp⟩
  simp [parse_ops, hall]

/-- C1 (amended): per-stream and per-operator failures are logged and skipped
and never abort the render call — under the success preconditions (loaded
document, valid index, readable media box, working surface) `renderPage`
returns success whatever the content-stream parts contain.  A part whose
tokens all decode contributes exactly its operators' surface calls, in
document order, before the following parts' calls; but a part containing one
unparsable operator among N valid ones fails to parse as a whole (the
external parser returns `Result<Vec<Op>, _>` per part), contributes no
surface calls — losing its N valid operators — logs one parse warning, and
processing continues with the remaining parts; a part whose data fails to
decode behaves likewise; and within a parsed part the operator loop emits
each operator's calls in order. -/
theorem claim_C1_fault_containment :
    (∀ (ok : SurfaceCall → Bool) (st : PdfRenderer) (fl : PdfFile) (n : ℕ)
        (page : Page) (mb : MediaBox) (z : ℚ),
      st.pdf_file = some fl → n < st.total_pages →
      fl.pages[n]? = some page → page.media_box = .ok mb →
      ok (.translateCall 0 (mb.top - mb.bottom)) = true →
      ok (.scaleCall 1 (-1)) = true → ok (.scaleCall z z) = true →
      render_page ok (.ok ()) st n z =
        .ok (pageSetupCalls (toU32 ((mb.right - mb.left) * z))
            (toU32 ((mb.top - mb.bottom) * z)) (mb.top - mb.bottom) z ++
          contentBody page ++ [.restore], contentWarns page)) ∧
    (∀ (part : StreamPart) (rest : List StreamPart) (idx : ℕ)
        (ts : TextState) (ops : List Op),
      part.dataResult = .ok (ops.map some) →
      runStreams (part :: rest) idx ts =
        ((runStreams rest (idx + 1) (runOps ops ts).1).1,
         (runOps ops ts).2.1 ++
           (runStreams rest (idx + 1) (runOps ops ts).1).2.1,
         (runOps ops ts).2.2 ++
           (runStreams rest (idx + 1) (runOps ops ts).1).2.2)) ∧
    (∀ (part : StreamPart) (rest : List StreamPart) (idx : ℕ)
        (ts : TextState) (toks : List Token),
      part.dataResult = .ok toks → none ∈ toks →
      runStreams (part :: rest) idx ts =
        ((runStreams rest (idx + 1) ts).1,
         (runStreams rest (idx + 1) ts).2.1,
         .streamParseFailed idx :: (runStreams rest (idx + 1) ts).2.2)) ∧
    (∀ (part : StreamPart) (rest : List StreamPart) (idx : ℕ)
        (ts : TextState) (e : String),
      part.dataResult = .error e →
      runStreams (part :: rest) idx ts =
        ((runStreams rest (idx + 1) ts).1,
         (runStreams rest (idx + 1) ts).2.1,
         .streamDataFailed idx :: (runStreams rest (idx + 1) ts).2.2)) ∧
    (∀ (op : Op) (ops : List Op) (ts : TextState),
      (runOps (op :: ops) ts).2.1 =
        callsOf op ts ++ (runOps ops (textStateAfter op ts)).2.1) := by
  refine ⟨?_, ?_, ?_, ?_, ?_⟩
  · intro ok st fl n page mb z hfl hn hpage hmb h1 h2 h3
    exact render_page_success ok st fl n page mb z hfl hn hpage hmb h1 h2 h3
  · intro part rest idx ts ops hdata
    rcases hops : runOps ops ts with ⟨ts1, cs1, ws1⟩
    rcases hrest : runStreams rest (idx + 1) ts1 with ⟨ts2, cs2, ws2⟩
    simp [runStreams, hdata, parse_ops_map_some, hops, hrest]
  · intro part rest idx ts toks hdata hnone
    rcases hrest : runStreams rest (idx + 1) ts with ⟨ts2, cs2, ws2⟩
    simp [runStreams, hdata, parse_ops_has_none hnone, hrest]
  · intro part rest idx ts e hdata
    rcases hrest : runStreams rest (idx + 1) ts with ⟨ts2, cs2, ws2⟩
    simp [runStreams, hdata, hrest]
  · intro op ops ts
    obtain ⟨⟨ts', calls⟩, hop⟩ := render_operation_isOk op ts
    rcases hrest : runOps ops ts' with ⟨ts2, cs, ws⟩
    simp [runOps, callsOf, textStateAfter, hop, hrest]

/-- Witness for C1 (amended): the loaded state `stD` whose single stream part
`badPart` holds one unparsable token between two valid operators. -/
theorem claim_C1_witness :
    stD.pdf_file = some fileD ∧ 0 < stD.total_pages ∧
    fileD.pages[0]? = some pageD ∧ pageD.media_box = .ok mbD ∧
    render_page (fun _ => true) (.ok ()) stD 0 1 =
      .ok (pageSetupCalls (toU32 ((mbD.right - mbD.left) * 1))
          (toU32 ((mbD.top - mbD.bottom) * 1)) (mbD.top - mbD.bottom) 1 ++
        contentBody pageD ++ [.restore], contentWarns pageD) ∧
    badPart.dataResult = .ok [some (.MoveTo 1 2), none, some (.LineTo 3 4)] ∧
    (none : Token) ∈ [some (.MoveTo 1 2), none, some (.LineTo 3 4)] ∧
    runStreams [badPart] 0 TextState.new =
      ((runStreams [] 1 TextState.new).1,
       (runStreams [] 1 TextState.new).2.1,
       .streamParseFailed 0 :: (runStreams [] 1 TextState.new).2.2) :=
  ⟨rfl, by decide, rfl, rfl,
   claim_C1_fault_containment.1 (fun _ => true) stD fileD 0 pageD mbD 1 rfl
     (by decide) rfl rfl rfl rfl rfl,
   rfl, by decide,
   claim_C1_fault_containment.2.2.1 badPart [] 0 TextState.new
     [some (.MoveTo 1 2), none, some (.LineTo 3 4)] rfl (by decide)⟩

/-- Witness for C7 (amended): the ASCII bytes of "AB", for which the UTF-8
byte length of the decoded string equals its character count. -/
theorem claim_C7_witness :
    (∀ b ∈ [65, 66], b < 128) ∧
    (to_string_lossy [65, 66]).utf8ByteSize = (to_string_lossy [65, 66]).length :=
  ⟨by decide, (claim_C7_amended TextState.new [65, 66]).2.2.2.1 (by decide)⟩
